import Mathlib

/-!
Shallow embedding of `app.py` from the Weather_App repository: a thin Flask
backend that forwards requests to the OpenWeatherMap provider, reshapes the
provider JSON into a simplified schema, and classifies failures.

Modelling conventions:
* Provider JSON payloads become Lean structures whose fields mirror the JSON
  paths the handlers read (`data['main']['temp']` becomes `d.main_temp`, …).
* Numbers that Python treats as floats are modelled as rationals (`ℚ`);
  Python's `round(x, 1)` (banker's rounding, documented round-half-to-even)
  is modelled exactly on `ℚ` by `round1`.
* HTTP query parameters are `Option String` (absent = `none`), matching
  `request.args.get`; Python truthiness of such a value is `pyFalsy`.
* Each handler is a pure function from its query parameters and the provider's
  response (or a provider oracle) to a response record; the record carries the
  HTTP status, the body, and — where a claim is about outbound traffic — what,
  if anything, was sent to the provider.
* The non-ASCII string literals in the repository file are stored double
  encoded (every UTF-8 multibyte sequence was re-read as MacRoman, e.g. the
  degree sign U+00B0 appears as the byte pair rendered "¬∞", and the emoji in
  the startup banner are corrupted the same way); the embedding uses the
  intended characters, e.g. "°C".
-/

namespace WeatherApp

/-! ### Icon mapping (`get_weather_icon`, app.py lines 17–30) -/

/-- The literal dictionary `icon_map` from `get_weather_icon`. -/
def icon_map : List (String × String) :=
  [("01d", "sun"), ("01n", "moon"),
   ("02d", "cloud-sun"), ("02n", "cloud-moon"),
   ("03d", "cloud"), ("03n", "cloud"),
   ("04d", "cloud"), ("04n", "cloud"),
   ("09d", "cloud-rain"), ("09n", "cloud-rain"),
   ("10d", "cloud-rain"), ("10n", "cloud-rain"),
   ("11d", "bolt"), ("11n", "bolt"),
   ("13d", "snowflake"), ("13n", "snowflake"),
   ("50d", "smog"), ("50n", "smog")]

/-- `get_weather_icon`: `icon_map.get(weather_code, 'sun')`. -/
def get_weather_icon (weather_code : String) : String :=
  (icon_map.lookup weather_code).getD "sun"

/-! ### Python primitives used by the handlers -/

/-- Python `str.capitalize()`: first character uppercased, all remaining
characters lowercased (modelled on the ASCII case maps of `Char`). -/
def pyCapitalize (s : String) : String :=
  match s.data with
  | [] => ""
  | c :: rest => String.mk (c.toUpper :: rest.map Char.toLower)

/-- Python `round(q)` to an integer: round half to even (banker's rounding).
Computed on the numerator and denominator so it reduces in the kernel:
`f = ⌊q⌋` and the fractional part `q - f = (q.num - f * q.den) / q.den` is
compared with `1/2` by comparing `2 * (q.num - f * q.den)` with `q.den`. -/
def pyRound (q : ℚ) : ℤ :=
  let f : ℤ := q.num.fdiv q.den
  let r2 : ℤ := 2 * (q.num - f * q.den)
  if r2 < (q.den : ℤ) then f
  else if (q.den : ℤ) < r2 then f + 1
  else if f % 2 = 0 then f else f + 1

/-- Python `round(q, 1)`: round to one decimal place, half to even. -/
def round1 (q : ℚ) : ℚ := (pyRound (10 * q) : ℚ) / 10

/-- Python truthiness of an optional string: `None` and `""` are falsy. -/
def pyFalsy : Option String → Bool
  | none => true
  | some s => s = ""

/-! ### Provider payloads

Fields mirror the JSON paths read by the handlers; a path such as
`data['main']['temp']` becomes the field `main_temp`.  Fields the code reads
with a `.get` default are `Option`s; all the others are read by subscripting
(a missing one raises `KeyError`), so a payload value of this structure
represents a provider body in which every required field is present. -/

/-- The fields of the provider body read by `get_current_weather`. -/
structure CurrentProviderData where
  name : String
  sys_country : String
  coord_lat : ℚ
  coord_lon : ℚ
  main_temp : ℚ
  main_feels_like : ℚ
  main_temp_min : ℚ
  main_temp_max : ℚ
  main_humidity : ℤ
  main_pressure : ℤ
  weather_main : String
  weather_description : String
  weather_icon : String
  wind_speed : ℚ
  wind_deg : Option ℤ
  clouds_all : ℤ
  visibility : Option ℚ
  sys_sunrise : ℤ
  sys_sunset : ℤ
  timezone : ℤ

/-! ### Output schema of `/api/weather/current` (the `weather_data` dict) -/

structure CoordinatesOut where
  lat : ℚ
  lon : ℚ

structure LocationOut where
  city : String
  country : String
  coordinates : CoordinatesOut

structure TemperatureOut where
  current : ℚ
  feels_like : ℚ
  min : ℚ
  max : ℚ
  unit : String

structure WeatherOut where
  main : String
  description : String
  icon : String
  icon_class : String

structure DetailsOut where
  humidity : ℤ
  pressure : ℤ
  wind_speed : ℚ
  wind_deg : ℤ
  cloudiness : ℤ
  visibility : ℚ

structure SunOut where
  sunrise : ℤ
  sunset : ℤ
  timezone : ℤ

structure WeatherData where
  location : LocationOut
  temperature : TemperatureOut
  weather : WeatherOut
  details : DetailsOut
  sun : SunOut

/-- The `weather_data` dictionary built in `get_current_weather`
(app.py lines 75–110) from a parsed provider body. -/
def build_weather_data (units : String) (data : CurrentProviderData) : WeatherData :=
  { location := { city := data.name
                  country := data.sys_country
                  coordinates := { lat := data.coord_lat, lon := data.coord_lon } }
    temperature := { current := round1 data.main_temp
                     feels_like := round1 data.main_feels_like
                     min := round1 data.main_temp_min
                     max := round1 data.main_temp_max
                     unit := if units = "metric" then "°C" else "°F" }
    weather := { main := data.weather_main
                 description := pyCapitalize data.weather_description
                 icon := data.weather_icon
                 icon_class := get_weather_icon data.weather_icon }
    details := { humidity := data.main_humidity
                 pressure := data.main_pressure
                 wind_speed := round1 data.wind_speed
                 wind_deg := data.wind_deg.getD 0
                 cloudiness := data.clouds_all
                 visibility := if units = "metric" then round1 (data.visibility.getD 10000 / 1000)
                               else round1 (data.visibility.getD 10000 / (160934 / 100)) }
    sun := { sunrise := data.sys_sunrise
             sunset := data.sys_sunset
             timezone := data.timezone } }

/-! ### The `/api/weather/current` handler with its transport layer

The outbound call is modelled by the provider's HTTP response: its status
code and, when the body parses and has every required field, the parsed
payload.  `requests.Response.raise_for_status` raises `HTTPError` exactly
for status codes 400–599; `str(e)` of that error (which names the status
code) is modelled by `http_error_detail`. -/

structure ProviderResponse where
  status : Nat
  payload : Option CurrentProviderData

/-- Stand-in for `str(e)` of the `HTTPError` raised by `raise_for_status`. -/
def http_error_detail (status : Nat) : String :=
  toString status ++ " Error"

inductive CurrentBody where
  | weather (w : WeatherData)
  | failure (msg : String)

structure CurrentResponse where
  status : Nat
  body : CurrentBody

/-- The `get_current_weather` handler (app.py lines 41–119), from the point
where the provider's response is available.  A 4xx/5xx provider status makes
`raise_for_status` raise (caught as `RequestException`, line 114); a body
without the required fields raises `KeyError` (line 116); otherwise the
normalized `weather_data` is returned with status 200. -/
def get_current_weather (units : String) (resp : ProviderResponse) : CurrentResponse :=
  if 400 ≤ resp.status ∧ resp.status < 600 then
    { status := 500
      body := .failure ("Weather API request failed: " ++ http_error_detail resp.status) }
  else
    match resp.payload with
    | none => { status := 500
                body := .failure "Invalid response format from weather API: missing field" }
    | some d => { status := 200, body := .weather (build_weather_data units d) }

/-! ### The `/api/weather/forecast` handler (app.py lines 121–172) -/

/-- The fields of one entry of the provider's forecast `list`. -/
structure ForecastItem where
  dt_txt : String
  main_temp : ℚ
  main_feels_like : ℚ
  main_humidity : ℤ
  weather_main : String
  weather_description : String
  weather_icon : String
  wind_speed : ℚ

/-- The fields of the provider forecast body read by `get_forecast`. -/
structure ForecastProviderData where
  city_name : String
  city_country : String
  list : List ForecastItem

structure ForecastEntryOut where
  datetime : String
  temperature : ℚ
  feels_like : ℚ
  weather : WeatherOut
  humidity : ℤ
  wind_speed : ℚ

/-- One entry appended to `forecast` in the loop of `get_forecast`
(app.py lines 146–160). -/
def build_forecast_entry (item : ForecastItem) : ForecastEntryOut :=
  { datetime := item.dt_txt
    temperature := round1 item.main_temp
    feels_like := round1 item.main_feels_like
    weather := { main := item.weather_main
                 description := pyCapitalize item.weather_description
                 icon := item.weather_icon
                 icon_class := get_weather_icon item.weather_icon }
    humidity := item.main_humidity
    wind_speed := round1 item.wind_speed }

/-- The loop over `data['list'][:5]` (app.py line 145). -/
def process_forecast (l : List ForecastItem) : List ForecastEntryOut :=
  (l.take 5).map build_forecast_entry

structure ForecastOut where
  location_city : String
  location_country : String
  forecast : List ForecastEntryOut
  units : String

inductive ForecastBody where
  | report (out : ForecastOut)
  | failure (msg : String)

structure ForecastResponse where
  status : Nat
  body : ForecastBody

structure ForecastProviderResponse where
  status : Nat
  payload : Option ForecastProviderData

/-- The `get_forecast` handler from the point where the provider's response
is available; every caught exception produces `({error}, 500)` (line 172). -/
def get_forecast (units : String) (resp : ForecastProviderResponse) : ForecastResponse :=
  if 400 ≤ resp.status ∧ resp.status < 600 then
    { status := 500, body := .failure ("Forecast request failed: " ++ http_error_detail resp.status) }
  else
    match resp.payload with
    | none => { status := 500, body := .failure "missing field" }
    | some d => { status := 200
                  body := .report { location_city := d.city_name
                                    location_country := d.city_country
                                    forecast := process_forecast d.list
                                    units := units } }

/-! ### The geocoding handlers (app.py lines 174–246)

The outbound call is modelled by an oracle; `Except.error e` stands for any
exception raised while performing it (connection failure, `raise_for_status`,
unparsable body), whose `str(e)` is the carried message.  The response
records whether, and with which arguments, the oracle was consulted. -/

/-- The fields of one entry of a geocoding provider response; every field is
read with `loc.get(...)`. -/
structure GeoLoc where
  name : Option String
  state : Option String
  country : Option String
  lat : Option ℚ
  lon : Option ℚ

structure LocationMatch where
  name : String
  state : String
  country : String
  lat : Option ℚ
  lon : Option ℚ

/-- The per-location dictionary built by `search_location` (lines 197–203)
and `reverse_geocode` (lines 235–241). -/
def process_location (loc : GeoLoc) : LocationMatch :=
  { name := loc.name.getD ""
    state := loc.state.getD ""
    country := loc.country.getD ""
    lat := loc.lat
    lon := loc.lon }

inductive SearchBody where
  | results (locs : List LocationMatch)
  | failure (msg : String)

structure SearchResponse where
  status : Nat
  body : SearchBody
  madeCall : Bool

/-- The `search_location` handler (app.py lines 174–208).  `query` is
`request.args.get('q', '')`; the guard is `if not query or len(query) < 2`. -/
def search_location (qParam : Option String)
    (provider : String → Except String (List GeoLoc)) : SearchResponse :=
  let query := qParam.getD ""
  if query = "" ∨ query.length < 2 then
    { status := 200, body := .results [], madeCall := false }
  else
    match provider query with
    | .ok locs => { status := 200, body := .results (locs.map process_location), madeCall := true }
    | .error e => { status := 500, body := .failure e, madeCall := true }

inductive ReverseBody where
  | found (loc : LocationMatch)
  | failure (msg : String)

structure ReverseResponse where
  status : Nat
  body : ReverseBody
  calledWith : Option (String × String)

/-- The `reverse_geocode` handler (app.py lines 210–246).  `lat`/`lon` are
`request.args.get(...)` (so `none` when absent); the guard is
`if not lat or not lon`, i.e. Python truthiness; past the guard the raw
strings are forwarded to the provider unparsed. -/
def reverse_geocode (latP lonP : Option String)
    (provider : String → String → Except String (List GeoLoc)) : ReverseResponse :=
  if pyFalsy latP || pyFalsy lonP then
    { status := 400, body := .failure "Latitude and longitude are required", calledWith := none }
  else
    let lat := latP.getD ""
    let lon := lonP.getD ""
    match provider lat lon with
    | .ok (loc :: _) =>
        { status := 200, body := .found (process_location loc), calledWith := some (lat, lon) }
    | .ok [] =>
        { status := 404, body := .failure "No location found for these coordinates"
          calledWith := some (lat, lon) }
    | .error e => { status := 500, body := .failure e, calledWith := some (lat, lon) }

/-! ### Concrete sample payloads used by witnesses and counterexamples -/

/-- A sample provider body; the description is deliberately upper-case. -/
def exRain : CurrentProviderData :=
  { name := "London"
    sys_country := "GB"
    coord_lat := 515/10
    coord_lon := -1/10
    main_temp := 15
    main_feels_like := 14
    main_temp_min := 12
    main_temp_max := 17
    main_humidity := 80
    main_pressure := 1012
    weather_main := "Rain"
    weather_description := "RAIN"
    weather_icon := "10d"
    wind_speed := 5
    wind_deg := some 200
    clouds_all := 90
    visibility := some 10000
    sys_sunrise := 1700000000
    sys_sunset := 1700040000
    timezone := 0 }

/-- A sample forecast item. -/
def exItem : ForecastItem :=
  { dt_txt := "2026-10-12 12:00:00"
    main_temp := 15
    main_feels_like := 14
    main_humidity := 80
    weather_main := "Rain"
    weather_description := "light rain"
    weather_icon := "10d"
    wind_speed := 5 }

/-- A sample provider forecast body with six list entries. -/
def exForecastData : ForecastProviderData :=
  { city_name := "London"
    city_country := "GB"
    list := [exItem, exItem, exItem, exItem, exItem, exItem] }

/-! ## Helper lemmas -/

/-- Inversion for the success path of the current-weather handler: a weather
body can only be the normalization of a parsed provider payload. -/
theorem get_current_weather_success_inv (units : String) (resp : ProviderResponse)
    (w : WeatherData) (h : (get_current_weather units resp).body = CurrentBody.weather w) :
    ∃ d, resp.payload = some d ∧ w = build_weather_data units d := by
  obtain ⟨st, payload⟩ := resp
  cases payload with
  | none => unfold get_current_weather at h; split at h <;> simp at h
  | some d =>
    unfold get_current_weather at h
    split at h
    · simp at h
    · simp only [CurrentBody.weather.injEq] at h
      exact ⟨d, rfl, h.symm⟩

/-- Inversion for the success path of the forecast handler. -/
theorem get_forecast_success_inv (units : String) (resp : ForecastProviderResponse)
    (out : ForecastOut) (h : (get_forecast units resp).body = ForecastBody.report out) :
    ∃ d, resp.payload = some d ∧
      out = { location_city := d.city_name, location_country := d.city_country,
              forecast := process_forecast d.list, units := units } := by
  obtain ⟨st, payload⟩ := resp
  cases payload with
  | none => unfold get_forecast at h; split at h <;> simp at h
  | some d =>
    unfold get_forecast at h
    split at h
    · simp at h
    · simp only [ForecastBody.report.injEq] at h
      exact ⟨d, rfl, h.symm⟩

/-! ## Claims -/

/-- C1: the icon mapping is total and deterministic: each of the eighteen
provider icon codes maps to the tabulated symbol, and every string outside
the vocabulary maps to the default "sun". -/
theorem claim1_icon_mapping :
    (∀ s : String, s ∉ icon_map.map Prod.fst → get_weather_icon s = "sun") ∧
    (get_weather_icon "01d" = "sun" ∧ get_weather_icon "01n" = "moon" ∧
     get_weather_icon "02d" = "cloud-sun" ∧ get_weather_icon "02n" = "cloud-moon" ∧
     get_weather_icon "03d" = "cloud" ∧ get_weather_icon "03n" = "cloud" ∧
     get_weather_icon "04d" = "cloud" ∧ get_weather_icon "04n" = "cloud" ∧
     get_weather_icon "09d" = "cloud-rain" ∧ get_weather_icon "09n" = "cloud-rain" ∧
     get_weather_icon "10d" = "cloud-rain" ∧ get_weather_icon "10n" = "cloud-rain" ∧
     get_weather_icon "11d" = "bolt" ∧ get_weather_icon "11n" = "bolt" ∧
     get_weather_icon "13d" = "snowflake" ∧ get_weather_icon "13n" = "snowflake" ∧
     get_weather_icon "50d" = "smog" ∧ get_weather_icon "50n" = "smog") := by
  constructor
  · intro s hs
    have hnone : icon_map.lookup s = none := by
      rw [List.lookup_eq_none_iff]
      intro p hp
      simp only [bne_iff_ne, ne_eq]
      intro hsp
      exact hs (hsp ▸ List.mem_map.mpr ⟨p, hp, rfl⟩)
    simp [get_weather_icon, hnone]
  · decide

/-- C1 witness: a concrete string outside the vocabulary yields "sun". -/
theorem claim1_icon_mapping_witness : get_weather_icon "99z" = "sun" :=
  claim1_icon_mapping.1 "99z" (by decide)

/-- C2 counterexample: for the provider description "RAIN" the normalized
description is "Rain" — the tail is lowercased, not left unchanged as the
claim states. -/
theorem claim2_counterexample :
    (build_weather_data "metric" exRain).weather.description = "Rain" ∧
    exRain.weather_description = "RAIN" ∧
    ¬ (build_weather_data "metric" exRain).weather.description = "RAIN" := by
  refine ⟨by decide, by decide, by decide⟩

/-- C2 amended: in both responses the normalized description is Python
`str.capitalize()` of the provider description: the first character is
uppercased and every remaining character is lowercased. -/
theorem claim2_description_capitalize :
    (∀ (units : String) (resp : ProviderResponse) (w : WeatherData),
        (get_current_weather units resp).body = CurrentBody.weather w →
        ∃ d, resp.payload = some d ∧
          w.weather.description = pyCapitalize d.weather_description) ∧
    (∀ item : ForecastItem,
        (build_forecast_entry item).weather.description =
          pyCapitalize item.weather_description) ∧
    pyCapitalize "" = "" ∧
    (∀ (c : Char) (rest : List Char),
        pyCapitalize (String.mk (c :: rest)) = String.mk (c.toUpper :: rest.map Char.toLower)) := by
  refine ⟨?_, fun item => rfl, rfl, fun c rest => rfl⟩
  intro units resp w h
  obtain ⟨d, hp, rfl⟩ := get_current_weather_success_inv units resp w h
  exact ⟨d, hp, rfl⟩

/-- C2 witness: the amended statement applied to a concrete success
response. -/
theorem claim2_description_capitalize_witness :
    ∃ d, (ProviderResponse.mk 200 (some exRain)).payload = some d ∧
      (build_weather_data "metric" exRain).weather.description =
        pyCapitalize d.weather_description :=
  claim2_description_capitalize.1 "metric" ⟨200, some exRain⟩
    (build_weather_data "metric" exRain) rfl

/-- C3: in every successful current-weather response the unit label is "°C"
exactly when the units parameter is "metric", and for every other value of
the units parameter — "imperial" and "standard" included — it is "°F". -/
theorem claim3_unit_label (units : String) (resp : ProviderResponse) (w : WeatherData)
    (h : (get_current_weather units resp).body = CurrentBody.weather w) :
    (w.temperature.unit = "°C" ↔ units = "metric") ∧
    (units ≠ "metric" → w.temperature.unit = "°F") ∧
    ((units = "imperial" ∨ units = "standard") → w.temperature.unit = "°F") := by
  obtain ⟨d, hp, rfl⟩ := get_current_weather_success_inv units resp w h
  have hunit : (build_weather_data units d).temperature.unit =
      if units = "metric" then "°C" else "°F" := rfl
  by_cases hm : units = "metric"
  · subst hm
    refine ⟨by simp [hunit], fun hne => absurd rfl hne, ?_⟩
    rintro (hu | hu) <;> exact absurd hu (by decide)
  · rw [hunit, if_neg hm]
    exact ⟨⟨fun hq => absurd hq (by decide), fun hq => absurd hq hm⟩,
      fun _ => rfl, fun _ => rfl⟩

/-- Evaluation of the metric visibility conversion at 10000 m. -/
theorem round1_vis_metric : round1 ((10000 : ℚ) / 1000) = 10 := by
  have h : (10 * ((10000 : ℚ) / 1000) : ℚ) = Rat.mk' 100 1 (by norm_num) (by norm_num) := by
    rw [Rat.mk'_eq_divInt, Rat.divInt_eq_div]
    norm_num
  simp only [round1, h]
  have h2 : pyRound (Rat.mk' 100 1 (by norm_num) (by norm_num)) = 100 := by decide
  rw [h2]
  norm_num

/-- Evaluation of the imperial visibility conversion at 10000 m:
10000 / 1609.34 = 6.2137…, which rounds to 6.2. -/
theorem round1_vis_imperial : round1 ((10000 : ℚ) / (160934 / 100)) = 62 / 10 := by
  have h : (10 * ((10000 : ℚ) / (160934 / 100)) : ℚ) =
      Rat.mk' 5000000 80467 (by norm_num) (by norm_num) := by
    rw [Rat.mk'_eq_divInt, Rat.divInt_eq_div]
    norm_num
  simp only [round1, h]
  have h2 : pyRound (Rat.mk' 5000000 80467 (by norm_num) (by norm_num)) = 62 := by decide
  rw [h2]
  norm_num

/-- C4: in every successful current-weather response the visibility is the
provider's visibility (default 10000 m) divided by 1000 for metric and by
1609.34 otherwise, rounded to one decimal; at 10000 m this gives 10.0
(metric) and 6.2 (imperial). -/
theorem claim4_visibility (units : String) (resp : ProviderResponse) (w : WeatherData)
    (h : (get_current_weather units resp).body = CurrentBody.weather w) :
    (∃ d, resp.payload = some d ∧
      w.details.visibility =
        (if units = "metric" then round1 (d.visibility.getD 10000 / 1000)
         else round1 (d.visibility.getD 10000 / (160934 / 100)))) ∧
    (∀ d : CurrentProviderData, d.visibility.getD 10000 = 10000 →
      (build_weather_data "metric" d).details.visibility = 10 ∧
      (build_weather_data "imperial" d).details.visibility = 62 / 10) := by
  constructor
  · obtain ⟨d, hp, rfl⟩ := get_current_weather_success_inv units resp w h
    exact ⟨d, hp, rfl⟩
  · intro d hd
    have e1 : (build_weather_data "metric" d).details.visibility =
        round1 (d.visibility.getD 10000 / 1000) := rfl
    have e2 : (build_weather_data "imperial" d).details.visibility =
        round1 (d.visibility.getD 10000 / (160934 / 100)) := rfl
    rw [e1, e2, hd]
    exact ⟨round1_vis_metric, round1_vis_imperial⟩

/-- C4 witness: the sample payload carries visibility 10000 m. -/
theorem claim4_visibility_witness :
    ((∃ d, (ProviderResponse.mk 200 (some exRain)).payload = some d ∧
        (build_weather_data "metric" exRain).details.visibility =
          (if ("metric" : String) = "metric" then round1 (d.visibility.getD 10000 / 1000)
           else round1 (d.visibility.getD 10000 / (160934 / 100)))) ∧
     (∀ d : CurrentProviderData, d.visibility.getD 10000 = 10000 →
        (build_weather_data "metric" d).details.visibility = 10 ∧
        (build_weather_data "imperial" d).details.visibility = 62 / 10)) ∧
    ((build_weather_data "metric" exRain).details.visibility = 10 ∧
     (build_weather_data "imperial" exRain).details.visibility = 62 / 10) := by
  have happ := claim4_visibility "metric" ⟨200, some exRain⟩
    (build_weather_data "metric" exRain) rfl
  exact ⟨happ, happ.2 exRain rfl⟩

/-- C5: every temperature and wind-speed value of a successful current or
forecast payload is the provider value passed through `round(·, 1)`, and a
rounded value always has at most one decimal digit (ten times it is an
integer). -/
theorem claim5_rounding :
    (∀ (units : String) (resp : ProviderResponse) (w : WeatherData),
        (get_current_weather units resp).body = CurrentBody.weather w →
        ∃ d, resp.payload = some d ∧
          w.temperature.current = round1 d.main_temp ∧
          w.temperature.feels_like = round1 d.main_feels_like ∧
          w.temperature.min = round1 d.main_temp_min ∧
          w.temperature.max = round1 d.main_temp_max ∧
          w.details.wind_speed = round1 d.wind_speed) ∧
    (∀ item : ForecastItem,
        (build_forecast_entry item).temperature = round1 item.main_temp ∧
        (build_forecast_entry item).feels_like = round1 item.main_feels_like ∧
        (build_forecast_entry item).wind_speed = round1 item.wind_speed) ∧
    (∀ (units : String) (resp : ForecastProviderResponse) (out : ForecastOut),
        (get_forecast units resp).body = ForecastBody.report out →
        ∀ e ∈ out.forecast, ∃ item, e = build_forecast_entry item) ∧
    (∀ q : ℚ, ((10 : ℚ) * round1 q).den = 1) := by
  refine ⟨?_, fun item => ⟨rfl, rfl, rfl⟩, ?_, ?_⟩
  · intro units resp w h
    obtain ⟨d, hp, rfl⟩ := get_current_weather_success_inv units resp w h
    exact ⟨d, hp, rfl, rfl, rfl, rfl, rfl⟩
  · intro units resp out h e he
    obtain ⟨d, hp, rfl⟩ := get_forecast_success_inv units resp out h
    simp only [process_forecast] at he
    obtain ⟨item, hi, rfl⟩ := List.mem_map.mp he
    exact ⟨item, rfl⟩
  · intro q
    have e : (10 : ℚ) * round1 q = ((pyRound (10 * q) : ℤ) : ℚ) := by
      simp only [round1]
      rw [mul_comm, div_mul_cancel₀ _ (by norm_num : (10 : ℚ) ≠ 0)]
    rw [e, Rat.den_intCast]

/-- C5 witness: the rounding facts at concrete payloads. -/
theorem claim5_rounding_witness :
    (∃ d, (ProviderResponse.mk 200 (some exRain)).payload = some d ∧
      (build_weather_data "metric" exRain).temperature.current = round1 d.main_temp ∧
      (build_weather_data "metric" exRain).temperature.feels_like = round1 d.main_feels_like ∧
      (build_weather_data "metric" exRain).temperature.min = round1 d.main_temp_min ∧
      (build_weather_data "metric" exRain).temperature.max = round1 d.main_temp_max ∧
      (build_weather_data "metric" exRain).details.wind_speed = round1 d.wind_speed) ∧
    ((10 : ℚ) * round1 (5 / 3)).den = 1 :=
  ⟨claim5_rounding.1 "metric" ⟨200, some exRain⟩ (build_weather_data "metric" exRain) rfl,
   claim5_rounding.2.2.2 (5 / 3)⟩

/-- C8: a successful forecast response carries exactly the first
min(n, 5) provider entries, normalized in the provider's order. -/
theorem claim8_forecast_count (units : String) (resp : ForecastProviderResponse)
    (out : ForecastOut) (h : (get_forecast units resp).body = ForecastBody.report out) :
    ∃ d, resp.payload = some d ∧
      out.forecast = (d.list.map build_forecast_entry).take 5 ∧
      out.forecast.length = min d.list.length 5 ∧
      out.forecast.length ≤ 5 := by
  obtain ⟨d, hp, rfl⟩ := get_forecast_success_inv units resp out h
  refine ⟨d, hp, ?_, ?_, ?_⟩
  · simp [process_forecast, List.map_take]
  · simp [process_forecast, List.length_map, List.length_take, Nat.min_comm]
  · simp only [process_forecast, List.length_map, List.length_take]
    omega

/-- C8 witness: six provider entries produce exactly five forecast
entries. -/
theorem claim8_forecast_count_witness :
    (∃ d, (ForecastProviderResponse.mk 200 (some exForecastData)).payload = some d ∧
      process_forecast exForecastData.list = (d.list.map build_forecast_entry).take 5 ∧
      (process_forecast exForecastData.list).length = min d.list.length 5 ∧
      (process_forecast exForecastData.list).length ≤ 5) ∧
    (process_forecast exForecastData.list).length = 5 := by
  refine ⟨claim8_forecast_count "metric" ⟨200, some exForecastData⟩
    { location_city := exForecastData.city_name
      location_country := exForecastData.city_country
      forecast := process_forecast exForecastData.list
      units := "metric" } rfl, ?_⟩
  simp [process_forecast, exForecastData]

/-- C3 witness: a concrete imperial request. -/
theorem claim3_unit_label_witness :
    ((build_weather_data "imperial" exRain).temperature.unit = "°C" ↔
      ("imperial" : String) = "metric") ∧
    (("imperial" : String) ≠ "metric" →
      (build_weather_data "imperial" exRain).temperature.unit = "°F") ∧
    ((("imperial" : String) = "imperial" ∨ ("imperial" : String) = "standard") →
      (build_weather_data "imperial" exRain).temperature.unit = "°F") :=
  claim3_unit_label "imperial" ⟨200, some exRain⟩ (build_weather_data "imperial" exRain) rfl

/-- C6: when the q parameter is absent or shorter than 2 characters, the
search handler answers 200 with an empty sequence and never consults the
provider. -/
theorem claim6_search_guard (qParam : Option String)
    (provider : String → Except String (List GeoLoc))
    (h : qParam = none ∨ ∃ s, qParam = some s ∧ s.length < 2) :
    search_location qParam provider =
      { status := 200, body := SearchBody.results [], madeCall := false } := by
  rcases h with rfl | ⟨s, rfl, hs⟩
  · rfl
  · simp only [search_location, Option.getD_some]
    rw [if_pos (Or.inr hs)]

/-- C6 witness: a one-character query. -/
theorem claim6_search_guard_witness :
    search_location (some "L") (fun _ => Except.ok []) =
      { status := 200, body := SearchBody.results [], madeCall := false } :=
  claim6_search_guard (some "L") (fun _ => Except.ok [])
    (Or.inr ⟨"L", rfl, by decide⟩)

/-- C7: when lat or lon is absent, the reverse handler answers 400 with an
error body and never consults the provider. -/
theorem claim7_reverse_missing (latP lonP : Option String)
    (provider : String → String → Except String (List GeoLoc))
    (h : latP = none ∨ lonP = none) :
    reverse_geocode latP lonP provider =
      { status := 400
        body := ReverseBody.failure "Latitude and longitude are required"
        calledWith := none } := by
  rcases h with rfl | rfl <;> simp [reverse_geocode, pyFalsy]

/-- C7 witness: lat absent, lon present. -/
theorem claim7_reverse_missing_witness :
    reverse_geocode none (some "0.1") (fun _ _ => Except.ok []) =
      { status := 400
        body := ReverseBody.failure "Latitude and longitude are required"
        calledWith := none } :=
  claim7_reverse_missing none (some "0.1") (fun _ _ => Except.ok []) (Or.inl rfl)

/-- C9 counterexample: a provider status of 302 is not 2xx, yet the handler
does not answer 500 — `raise_for_status` raises only for 4xx/5xx, so a
parseable body behind a 302 yields a 200 success response. -/
theorem claim9_counterexample :
    ¬ (200 ≤ 302 ∧ 302 < 300) ∧
    get_current_weather "metric" { status := 302, payload := some exRain } =
      { status := 200, body := CurrentBody.weather (build_weather_data "metric" exRain) } :=
  ⟨by decide, rfl⟩

/-- C9 amended: for every provider response with a 4xx or 5xx status
(including 404 for an unknown city) the handler answers 500 with a body
describing the request failure, and the provider status is not passed
through. -/
theorem claim9_transport_failure (units : String) (resp : ProviderResponse)
    (h4 : 400 ≤ resp.status) (h6 : resp.status < 600) :
    get_current_weather units resp =
      { status := 500
        body := CurrentBody.failure
          ("Weather API request failed: " ++ http_error_detail resp.status) } ∧
    (resp.status ≠ 500 → (get_current_weather units resp).status ≠ resp.status) := by
  have e : get_current_weather units resp =
      { status := 500
        body := CurrentBody.failure
          ("Weather API request failed: " ++ http_error_detail resp.status) } := by
    unfold get_current_weather
    rw [if_pos ⟨h4, h6⟩]
  refine ⟨e, fun hne hc => hne ?_⟩
  rw [e] at hc
  exact hc.symm

/-- C9 witness: provider 404 becomes a 500 with a request-failure body. -/
theorem claim9_transport_failure_witness :
    get_current_weather "metric" { status := 404, payload := none } =
      { status := 500
        body := CurrentBody.failure
          ("Weather API request failed: " ++ http_error_detail 404) } ∧
    ((404 : Nat) ≠ 500 →
      (get_current_weather "metric" { status := 404, payload := none }).status ≠ 404) :=
  claim9_transport_failure "metric" ⟨404, none⟩ (by decide) (by decide)

/-- C10: the reverse handler validates lat and lon by string truthiness
only: a present-but-empty parameter behaves exactly like an absent one and
yields the 400 error with no outbound call, while any non-empty pair of
strings — numeric or not — passes validation and is forwarded to the
provider unparsed. -/
theorem claim10_truthiness :
    (∀ (lonP : Option String) (provider : String → String → Except String (List GeoLoc)),
        reverse_geocode (some "") lonP provider = reverse_geocode none lonP provider ∧
        reverse_geocode (some "") lonP provider =
          { status := 400
            body := ReverseBody.failure "Latitude and longitude are required"
            calledWith := none }) ∧
    (∀ (latP : Option String) (provider : String → String → Except String (List GeoLoc)),
        reverse_geocode latP (some "") provider = reverse_geocode latP none provider ∧
        reverse_geocode latP (some "") provider =
          { status := 400
            body := ReverseBody.failure "Latitude and longitude are required"
            calledWith := none }) ∧
    (∀ (s t : String) (provider : String → String → Except String (List GeoLoc)),
        s ≠ "" → t ≠ "" →
        (reverse_geocode (some s) (some t) provider).calledWith = some (s, t)) := by
  refine ⟨?_, ?_, ?_⟩
  · intro lonP provider
    constructor <;> simp [reverse_geocode, pyFalsy]
  · intro latP provider
    constructor <;> simp [reverse_geocode, pyFalsy]
  · intro s t provider hs ht
    have hls : pyFalsy (some s) = false := by simp [pyFalsy, hs]
    have hlt : pyFalsy (some t) = false := by simp [pyFalsy, ht]
    simp only [reverse_geocode, hls, hlt, Bool.or_self, Bool.false_eq_true, if_false,
      Option.getD_some]
    cases hp : provider s t with
    | ok locs => cases locs <;> rfl
    | error e => rfl

/-- C10 witness: a non-numeric pair of coordinates is forwarded verbatim. -/
theorem claim10_truthiness_witness :
    (reverse_geocode (some "51.5") (some "abc") (fun _ _ => Except.ok [])).calledWith =
      some ("51.5", "abc") :=
  claim10_truthiness.2.2 "51.5" "abc" (fun _ _ => Except.ok []) (by decide) (by decide)

end WeatherApp
